import Mathlib

/-!
Shallow embedding of the RCS Bulk Messaging System's core domain
(`apps/core/domain/message.py`, `apps/core/domain/campaign.py`) and the
delivery orchestration service (`apps/core/services/delivery_service.py`).

Modelling conventions:
* `datetime` instants are modelled as `Nat` (minutes since epoch); each
  Python method that calls `datetime.now(...)` takes the current instant
  as an explicit `now : Nat` argument.
* Python `Optional[X]` is `Option X`; Python truthiness of an optional
  string (`if s:`) is `strTruthy`.
* Methods that `raise` are `Except PyError _`; the Python code always
  raises before mutating, so an erroring call leaves the object unchanged,
  which `applyOp` makes explicit.
-/

namespace RcsBulk

/-- Message delivery states (`MessageStatus` in message.py). -/
inductive MessageStatus
  | PENDING
  | QUEUED
  | SENT
  | DELIVERED
  | READ
  | FAILED
  | FALLBACK_SENT
  | FALLBACK_DELIVERED
  | EXPIRED
deriving DecidableEq, Repr

/-- The `.value` string of a `MessageStatus` member. -/
def MessageStatus.value : MessageStatus → String
  | .PENDING => "pending"
  | .QUEUED => "queued"
  | .SENT => "sent"
  | .DELIVERED => "delivered"
  | .READ => "read"
  | .FAILED => "failed"
  | .FALLBACK_SENT => "fallback_sent"
  | .FALLBACK_DELIVERED => "fallback_delivered"
  | .EXPIRED => "expired"

/-- Supported messaging channels (`MessageChannel` in message.py). -/
inductive MessageChannel
  | RCS
  | SMS
  | WHATSAPP
deriving DecidableEq, Repr

/-- Categorized failure reasons (`FailureReason` in message.py). -/
inductive FailureReason
  | INVALID_NUMBER
  | RCS_NOT_SUPPORTED
  | NETWORK_ERROR
  | RATE_LIMITED
  | BLOCKED
  | EXPIRED
  | UNKNOWN
deriving DecidableEq, Repr

/-- Python exceptions raised by the domain layer. -/
inductive PyError
  | valueError (msg : String)
  | invalidStateTransition (msg : String)
deriving DecidableEq, Repr

/-- Python truthiness of an `Optional[str]`: `None` and `""` are falsy. -/
def strTruthy : Option String → Bool
  | none => false
  | some s => !s.isEmpty

/-- RCS suggested action (`SuggestedAction` dataclass). -/
structure SuggestedAction where
  type : String
  text : String
  postback_data : Option String
  url : Option String
  phone_number : Option String
deriving DecidableEq, Repr

/-- RCS rich card (`RichCard` dataclass). -/
structure RichCard where
  title : Option String
  description : Option String
  media_url : Option String
  media_type : Option String
  media_height : String
  suggestions : List SuggestedAction
deriving DecidableEq, Repr

/-- Message content (`MessageContent` dataclass). -/
structure MessageContent where
  text : String
  rich_card : Option RichCard
  suggestions : List SuggestedAction
deriving DecidableEq, Repr

/-- `MessageContent.to_sms_text` (message.py lines 112-130): starts from
`self.text`, appends the rich card's media URL when truthy, then appends
`"\ntext: url"` for each truthy URL suggestion.  This is the method that
`Message.trigger_fallback` actually calls. -/
def MessageContent.to_sms_text (c : MessageContent) : String :=
  let s1 :=
    match c.rich_card with
    | some rc => if strTruthy rc.media_url then c.text ++ "\n" ++ rc.media_url.getD "" else c.text
    | none => c.text
  c.suggestions.foldl
    (fun acc sg =>
      if sg.type == "url" && strTruthy sg.url then
        acc ++ "\n" ++ sg.text ++ ": " ++ sg.url.getD ""
      else acc)
    s1

/-- Python `str.strip()`: drop leading and trailing whitespace
(modelled over the string's character list). -/
def pyStrip (s : String) : String :=
  String.mk (((s.data.dropWhile Char.isWhitespace).reverse.dropWhile
    Char.isWhitespace).reverse)

/-- The rich SMS conversion that the spec describes (title, description,
`View:` media URL, URL and `Call:` dial suggestions, 1600-char truncation
with `"..."`, final strip).  In the source this body sits at message.py
lines 146-186, but it was pasted into the `DeliveryAttempt` dataclass,
which has no `text`/`rich_card`/`suggestions` attributes, so it is dead
code: `trigger_fallback` calls `MessageContent.to_sms_text` above instead.
Transcribed here (over the content fields it references) to document the
divergence. -/
def richCardSmsText (c : MessageContent) : String :=
  let s1 := c.text
  let s2 :=
    match c.rich_card with
    | some rc =>
      let a := if strTruthy rc.title then s1 ++ "\n\n" ++ rc.title.getD "" else s1
      let b := if strTruthy rc.description then a ++ "\n" ++ rc.description.getD "" else a
      if strTruthy rc.media_url then b ++ "\nView: " ++ rc.media_url.getD "" else b
    | none => s1
  let s3 :=
    if c.suggestions.isEmpty then s2
    else
      c.suggestions.foldl
        (fun acc sg =>
          if sg.type == "url" && strTruthy sg.url then
            acc ++ "\n" ++ sg.text ++ ": " ++ sg.url.getD ""
          else if sg.type == "dial" && strTruthy sg.phone_number then
            acc ++ "\nCall: " ++ sg.phone_number.getD ""
          else acc)
        (s2 ++ "\n")
  let s4 := if s3.data.length > 1600 then String.mk (s3.data.take 1597) ++ "..." else s3
  pyStrip s4

/-- Record of a delivery attempt (`DeliveryAttempt` dataclass). -/
structure DeliveryAttempt where
  attempt_number : Nat
  channel : MessageChannel
  attempted_at : Nat
  status : MessageStatus
  aggregator : Option String
  error_code : Option String
  error_message : Option String
  external_id : Option String
deriving DecidableEq, Repr

/-- Python `phone.startswith('+')`, modelled over the character list. -/
def startsWithPlus (s : String) : Bool :=
  match s.data with
  | c :: _ => c = '+'
  | [] => false

/-- `Message._normalize_phone` (message.py lines 489-509): strip
non-digits; if the input does not start with `+`, prefix `+91` when it has
exactly 10 digits, else just `+`; an input already starting with `+` is
returned unchanged. -/
def normalize_phone (phone : String) : String :=
  let digits := String.mk (phone.data.filter Char.isDigit)
  if !(startsWithPlus phone) then
    if digits.length == 10 then "+91" ++ digits else "+" ++ digits
  else phone

/-- `created_at.replace(hour=23, minute=59)` on a minutes-since-epoch
instant (1440 minutes per day): same day, 23:59. -/
def endOfDay (t : Nat) : Nat :=
  (t / 1440) * 1440 + 23 * 60 + 59

/-- The `Message` aggregate's state (the fields of `Message.__init__`,
message.py lines 216-260; UUID identity fields are omitted as no modelled
operation reads them). -/
structure Message where
  recipient_phone : String
  content : MessageContent
  status : MessageStatus
  channel : MessageChannel
  created_at : Nat
  updated_at : Nat
  queued_at : Option Nat
  sent_at : Option Nat
  delivered_at : Option Nat
  read_at : Option Nat
  failed_at : Option Nat
  expires_at : Nat
  retry_count : Nat
  max_retries : Nat
  fallback_enabled : Bool
  fallback_triggered : Bool
  delivery_attempts : List DeliveryAttempt
  aggregator : Option String
  external_id : Option String
  failure_reason : Option FailureReason
  metadata_original_channel : Option String
  metadata_sms_text : Option String
deriving DecidableEq, Repr

/-- `Message.__init__` (message.py lines 216-260). -/
def Message.init (recipient_phone : String) (content : MessageContent)
    (status : MessageStatus) (channel : MessageChannel) (now : Nat) : Message :=
  { recipient_phone := normalize_phone recipient_phone
    content := content
    status := status
    channel := channel
    created_at := now
    updated_at := now
    queued_at := none
    sent_at := none
    delivered_at := none
    read_at := none
    failed_at := none
    expires_at := endOfDay now
    retry_count := 0
    max_retries := 3
    fallback_enabled := true
    fallback_triggered := false
    delivery_attempts := []
    aggregator := none
    external_id := none
    failure_reason := none
    metadata_original_channel := none
    metadata_sms_text := none }

/-- `Message.create` (message.py lines 262-293): a fresh message on the
RCS channel in PENDING status. -/
def Message.create (recipient_phone : String) (content : MessageContent)
    (now : Nat) : Message :=
  Message.init recipient_phone content MessageStatus.PENDING MessageChannel.RCS now

/-- `Message._record_attempt` (message.py lines 511-531): append one
`DeliveryAttempt` numbered `len(delivery_attempts) + 1`. -/
def Message.record_attempt (m : Message) (channel : MessageChannel)
    (status : MessageStatus) (aggregator : Option String)
    (external_id : Option String) (error_code : Option String)
    (error_message : Option String) (now : Nat) : Message :=
  { m with delivery_attempts :=
      m.delivery_attempts ++
        [{ attempt_number := m.delivery_attempts.length + 1
           channel := channel
           attempted_at := now
           status := status
           aggregator := aggregator
           error_code := error_code
           error_message := error_message
           external_id := external_id }] }

/-- `Message.queue` (message.py lines 295-302): PENDING → QUEUED, else
`ValueError` (raised before any mutation). -/
def Message.queue (m : Message) (now : Nat) : Except PyError Message :=
  if m.status ≠ MessageStatus.PENDING then
    Except.error (PyError.valueError
      ("Cannot queue message in " ++ m.status.value ++ " status"))
  else
    Except.ok { m with status := MessageStatus.QUEUED
                       queued_at := some now
                       updated_at := now }

/-- `Message.mark_sent` (message.py lines 304-324): unconditionally sets
SENT, stores aggregator and external id, records one attempt. -/
def Message.mark_sent (m : Message) (aggregator : String)
    (external_id : String) (now : Nat) : Message :=
  let m1 := { m with status := MessageStatus.SENT
                     sent_at := some now
                     updated_at := now
                     aggregator := some aggregator
                     external_id := some external_id }
  m1.record_attempt m1.channel MessageStatus.SENT (some aggregator)
    (some external_id) none none now

/-- `Message.mark_delivered` (message.py lines 326-341): valid only from
SENT or QUEUED. -/
def Message.mark_delivered (m : Message) (now : Nat) : Except PyError Message :=
  if m.status ≠ MessageStatus.SENT ∧ m.status ≠ MessageStatus.QUEUED then
    Except.error (PyError.valueError
      ("Cannot mark delivered from " ++ m.status.value ++ " status"))
  else
    let m1 := { m with status := MessageStatus.DELIVERED
                       delivered_at := some now
                       updated_at := now }
    Except.ok (m1.record_attempt m1.channel MessageStatus.DELIVERED
      m1.aggregator none none none now)

/-- `Message.mark_read` (message.py lines 343-353): a silent no-op off
the RCS channel; valid only from DELIVERED otherwise. -/
def Message.mark_read (m : Message) (now : Nat) : Except PyError Message :=
  if m.channel ≠ MessageChannel.RCS then
    Except.ok m
  else if m.status ≠ MessageStatus.DELIVERED then
    Except.error (PyError.valueError
      ("Cannot mark read from " ++ m.status.value ++ " status"))
  else
    Except.ok { m with status := MessageStatus.READ
                       read_at := some now
                       updated_at := now }

/-- `Message.mark_failed` (message.py lines 355-380): unconditionally sets
FAILED, stores the failure reason, records one failed attempt. -/
def Message.mark_failed (m : Message) (reason : FailureReason)
    (error_code : Option String) (error_message : Option String)
    (now : Nat) : Message :=
  let m1 := { m with status := MessageStatus.FAILED
                     failed_at := some now
                     updated_at := now
                     failure_reason := some reason }
  m1.record_attempt m1.channel MessageStatus.FAILED m1.aggregator none
    error_code error_message now

/-- `Message.should_retry` (message.py lines 382-405). -/
def Message.should_retry (m : Message) (now : Nat) : Bool :=
  if m.status ≠ MessageStatus.FAILED then false
  else if m.retry_count ≥ m.max_retries then false
  else if now > m.expires_at then false
  else if m.failure_reason = some FailureReason.INVALID_NUMBER
       ∨ m.failure_reason = some FailureReason.BLOCKED then false
  else true

/-- `Message.should_fallback_to_sms` (message.py lines 407-430). -/
def Message.should_fallback_to_sms (m : Message) : Bool :=
  if !m.fallback_enabled then false
  else if m.fallback_triggered then false
  else if m.channel = MessageChannel.SMS then false
  else if m.failure_reason = some FailureReason.RCS_NOT_SUPPORTED then true
  else if m.retry_count ≥ m.max_retries then true
  else false

/-- `Message.trigger_fallback` (message.py lines 432-445): guard on
`should_fallback_to_sms`, then switch to SMS, reset to PENDING, reset the
retry counter, and store the plain-text conversion in metadata. -/
def Message.trigger_fallback (m : Message) (now : Nat) : Except PyError Message :=
  if !m.should_fallback_to_sms then
    Except.error (PyError.valueError "Cannot trigger fallback for this message")
  else
    Except.ok { m with channel := MessageChannel.SMS
                       status := MessageStatus.PENDING
                       fallback_triggered := true
                       retry_count := 0
                       updated_at := now
                       metadata_original_channel := some "rcs"
                       metadata_sms_text := some m.content.to_sms_text }

/-- `Message.mark_fallback_sent` (message.py lines 533-551 — the second
definition of that name in the class, which shadows the first one at
lines 447-460): sets FALLBACK_SENT, forces `fallback_triggered` and the
SMS channel, stores aggregator and external id; records no attempt. -/
def Message.mark_fallback_sent (m : Message) (aggregator : String)
    (external_id : String) (now : Nat) : Message :=
  { m with status := MessageStatus.FALLBACK_SENT
           fallback_triggered := true
           channel := MessageChannel.SMS
           aggregator := some aggregator
           external_id := some external_id
           sent_at := some now
           updated_at := now }

/-- `Message.mark_fallback_delivered` (message.py lines 462-466). -/
def Message.mark_fallback_delivered (m : Message) (now : Nat) : Message :=
  { m with status := MessageStatus.FALLBACK_DELIVERED
           delivered_at := some now
           updated_at := now }

/-- `Message.increment_retry` (message.py lines 468-471). -/
def Message.increment_retry (m : Message) (now : Nat) : Message :=
  { m with retry_count := m.retry_count + 1
           updated_at := now }

/-- One operation of the `Message` aggregate's public mutator interface. -/
inductive Op
  | queue (now : Nat)
  | mark_sent (aggregator external_id : String) (now : Nat)
  | mark_delivered (now : Nat)
  | mark_read (now : Nat)
  | mark_failed (reason : FailureReason)
      (error_code error_message : Option String) (now : Nat)
  | trigger_fallback (now : Nat)
  | mark_fallback_sent (aggregator external_id : String) (now : Nat)
  | mark_fallback_delivered (now : Nat)
  | increment_retry (now : Nat)
deriving DecidableEq, Repr

/-- Apply one operation to a message.  The fallible methods raise before
mutating anything, so on error the message is unchanged. -/
def applyOp (m : Message) : Op → Message
  | Op.queue now =>
    match m.queue now with
    | Except.ok m2 => m2
    | Except.error _ => m
  | Op.mark_sent agg ext now => m.mark_sent agg ext now
  | Op.mark_delivered now =>
    match m.mark_delivered now with
    | Except.ok m2 => m2
    | Except.error _ => m
  | Op.mark_read now =>
    match m.mark_read now with
    | Except.ok m2 => m2
    | Except.error _ => m
  | Op.mark_failed reason ec em now => m.mark_failed reason ec em now
  | Op.trigger_fallback now =>
    match m.trigger_fallback now with
    | Except.ok m2 => m2
    | Except.error _ => m
  | Op.mark_fallback_sent agg ext now => m.mark_fallback_sent agg ext now
  | Op.mark_fallback_delivered now => m.mark_fallback_delivered now
  | Op.increment_retry now => m.increment_retry now

/-- Run a sequence of operations left to right. -/
def runOps (m : Message) (ops : List Op) : Message :=
  ops.foldl applyOp m

/-- Campaign lifecycle states (`CampaignStatus` in campaign.py). -/
inductive CampaignStatus
  | DRAFT
  | SCHEDULED
  | ACTIVE
  | PAUSED
  | COMPLETED
  | CANCELLED
  | FAILED
deriving DecidableEq, Repr

/-- The `.value` string of a `CampaignStatus` member. -/
def CampaignStatus.value : CampaignStatus → String
  | .DRAFT => "draft"
  | .SCHEDULED => "scheduled"
  | .ACTIVE => "active"
  | .PAUSED => "paused"
  | .COMPLETED => "completed"
  | .CANCELLED => "cancelled"
  | .FAILED => "failed"

/-- A domain event appended by campaign transitions (only the fields the
modelled operations write). -/
structure CampaignEvent where
  event_type : String
  recipient_count : Nat
deriving DecidableEq, Repr

/-- The `Campaign` aggregate's state: the fields `Campaign.activate`
reads and writes (campaign.py lines 115-156; identity, template, audience
and statistics fields that no modelled operation touches are omitted). -/
structure Campaign where
  status : CampaignStatus
  recipient_count : Nat
  updated_at : Nat
  events : List CampaignEvent
deriving DecidableEq, Repr

/-- `Campaign.activate` (campaign.py lines 232-254): only from DRAFT or
SCHEDULED (`InvalidStateTransition` otherwise), and only with at least
one recipient (`ValueError` otherwise); both raises happen before any
mutation.  On success: ACTIVE, timestamp updated, one event appended. -/
def Campaign.activate (c : Campaign) (now : Nat) : Except PyError Campaign :=
  if c.status ≠ CampaignStatus.DRAFT ∧ c.status ≠ CampaignStatus.SCHEDULED then
    Except.error (PyError.invalidStateTransition
      ("Cannot activate campaign in " ++ c.status.value ++ " status"))
  else if c.recipient_count = 0 then
    Except.error (PyError.valueError "Campaign must have at least one recipient")
  else
    Except.ok { c with status := CampaignStatus.ACTIVE
                       updated_at := now
                       events := c.events ++
                         [{ event_type := "campaign.activated"
                            recipient_count := c.recipient_count }] }

/-- `Campaign.activate` as a state transformer: a raise leaves the
campaign unchanged. -/
def Campaign.activateRun (c : Campaign) (now : Nat) : Campaign :=
  match c.activate now with
  | Except.ok c2 => c2
  | Except.error _ => c

/-- `DeliveryService.send_message` (delivery_service.py lines 80-131):
check the opt-out repository first and raise `ValueError` before any
`Message.create`; otherwise create (and persist/enqueue) the message.
The opt-out repository lookup is the `optedOut` predicate. -/
def send_message (optedOut : String → Bool) (recipient_phone : String)
    (content : MessageContent) (now : Nat) : Except PyError Message :=
  if optedOut recipient_phone then
    Except.error (PyError.valueError
      ("Recipient " ++ recipient_phone ++ " has opted out"))
  else
    Except.ok (Message.create recipient_phone content now)

/-- `DeliveryService.send_message_batch` (delivery_service.py lines
133-188): drop opted-out recipients, then create one message per
remaining recipient. -/
def send_message_batch (optedOut : String → Bool) (recipients : List String)
    (content : MessageContent) (now : Nat) : List Message :=
  let valid_recipients := recipients.filter (fun p => !optedOut p)
  valid_recipients.map (fun p => Message.create p content now)

/-- A job scheduled on the dispatch queue via `QueuePort.schedule`. -/
structure ScheduledJob where
  message : Message
  scheduled_for : Nat
deriving DecidableEq, Repr

/-- `DeliveryService._requeue_with_delay` (delivery_service.py lines
383-396): schedules the dispatch job at `datetime.utcnow()` — the `delay`
argument is accepted but never used (source comment: "Simplified delay
logic for now"). -/
def requeue_with_delay (m : Message) (delay : Nat) (now : Nat) : ScheduledJob :=
  { message := m
    scheduled_for := now }

/-- The `except RateLimitException` branch of
`DeliveryService.process_message_delivery` (delivery_service.py lines
242-247): requeue with `delay = e.retry_after or 60` (Python `or`: a
missing or zero `retry_after` falls back to 60) and leave the message
untouched.  Returns the scheduled job and the message as left by the
branch. -/
def handle_rate_limit (m : Message) (retry_after : Option Nat)
    (now : Nat) : ScheduledJob × Message :=
  let delay :=
    match retry_after with
    | some r => if r = 0 then 60 else r
    | none => 60
  (requeue_with_delay m delay now, m)

/-- The spec's normalization property for stored phone numbers: the
string begins with a plus sign followed only by digits. -/
def isPlusDigits (s : String) : Bool :=
  match s.data with
  | [] => false
  | c :: rest => c = '+' && rest.all Char.isDigit

/-- A minimal plain-text content for concrete evaluations. -/
def plainContent : MessageContent :=
  { text := "Hi", rich_card := none, suggestions := [] }

/-- A content with a rich card (title, description) and one dial
suggestion, used to evaluate the SMS conversion. -/
def cardContent : MessageContent :=
  { text := "Sale!"
    rich_card := some
      { title := some "Big Sale"
        description := some "Half price"
        media_url := none
        media_type := none
        media_height := "MEDIUM"
        suggestions := [] }
    suggestions :=
      [{ type := "dial"
         text := "Call us"
         postback_data := none
         url := none
         phone_number := some "+15550100" }] }

/-- A freshly created message, for concrete evaluations. -/
def sampleMessage : Message :=
  Message.create "9876543210" plainContent 0

/-- A message marked FAILED with reason RCS_NOT_SUPPORTED, for concrete
evaluations. -/
def sampleMessageFailed : Message :=
  sampleMessage.mark_failed FailureReason.RCS_NOT_SUPPORTED none none 1

/-- A DRAFT campaign with recipients, for concrete evaluations. -/
def draftCampaign : Campaign :=
  { status := CampaignStatus.DRAFT
    recipient_count := 5
    updated_at := 0
    events := [] }

/-- A DRAFT campaign with no recipients, for concrete evaluations. -/
def emptyDraftCampaign : Campaign :=
  { status := CampaignStatus.DRAFT
    recipient_count := 0
    updated_at := 0
    events := [] }

/-- An opt-out predicate for concrete evaluations: exactly the number
+911234567890 has opted out. -/
def sampleOptedOut : String → Bool :=
  fun p => p == "+911234567890"

/-- C1: `should_retry` is true iff the message is FAILED, has retries
left, is not past its expiry instant, and its failure reason is neither
INVALID_NUMBER nor BLOCKED. -/
theorem should_retry_iff (m : Message) (now : Nat) :
    m.should_retry now = true ↔
      (m.status = MessageStatus.FAILED ∧ m.retry_count < m.max_retries ∧
       now ≤ m.expires_at ∧
       m.failure_reason ≠ some FailureReason.INVALID_NUMBER ∧
       m.failure_reason ≠ some FailureReason.BLOCKED) := by
  unfold Message.should_retry
  split_ifs with h1 h2 h3 h4
  · simp only [Bool.false_eq_true, false_iff]
    tauto
  · simp only [Bool.false_eq_true, false_iff]
    rintro ⟨-, hlt, -, -, -⟩
    omega
  · simp only [Bool.false_eq_true, false_iff]
    rintro ⟨-, -, hle, -, -⟩
    omega
  · simp only [Bool.false_eq_true, false_iff]
    tauto
  · simp only [true_iff]
    push_neg at h1 h2 h3 h4
    exact ⟨h1, h2, h3, h4.1, h4.2⟩

/-- Witness for C1: the sample failed message (FAILED, zero retries,
inside its expiry window, reason RCS_NOT_SUPPORTED) is retryable. -/
theorem should_retry_iff_witness :
    sampleMessageFailed.should_retry 2 = true :=
  (should_retry_iff sampleMessageFailed 2).mpr
    ⟨rfl, by decide, by decide, by decide, by decide⟩

/-- C2: a FAILED message with reason RCS_NOT_SUPPORTED, fallback enabled
and not yet triggered, on the RCS channel, is fallback-eligible, and
`trigger_fallback` succeeds, leaving channel SMS, status PENDING,
`retry_count` 0 and `fallback_triggered` true. -/
theorem fallback_scenario (m : Message) (now : Nat)
    (_h1 : m.status = MessageStatus.FAILED)
    (h2 : m.failure_reason = some FailureReason.RCS_NOT_SUPPORTED)
    (h3 : m.fallback_enabled = true)
    (h4 : m.fallback_triggered = false)
    (h5 : m.channel = MessageChannel.RCS) :
    m.should_fallback_to_sms = true ∧
    ∃ m2, m.trigger_fallback now = Except.ok m2 ∧
      m2.channel = MessageChannel.SMS ∧ m2.status = MessageStatus.PENDING ∧
      m2.retry_count = 0 ∧ m2.fallback_triggered = true := by
  have hsf : m.should_fallback_to_sms = true := by
    unfold Message.should_fallback_to_sms
    simp [h2, h3, h4, h5]
  refine ⟨hsf, ?_⟩
  unfold Message.trigger_fallback
  rw [hsf]
  exact ⟨_, rfl, rfl, rfl, rfl, rfl⟩

/-- Witness for C2 at a concrete failed message. -/
theorem fallback_scenario_witness :
    (sampleMessageFailed.should_fallback_to_sms = true ∧
     ∃ m2, sampleMessageFailed.trigger_fallback 2 = Except.ok m2 ∧
       m2.channel = MessageChannel.SMS ∧ m2.status = MessageStatus.PENDING ∧
       m2.retry_count = 0 ∧ m2.fallback_triggered = true) :=
  fallback_scenario sampleMessageFailed 2 rfl rfl rfl rfl rfl

/-- C10: `mark_sent` has no precondition: from any state it sets SENT,
stores the aggregator and external id, and appends exactly one delivery
attempt to the log. -/
theorem mark_sent_total (m : Message) (agg ext : String) (now : Nat) :
    (m.mark_sent agg ext now).status = MessageStatus.SENT ∧
    (m.mark_sent agg ext now).aggregator = some agg ∧
    (m.mark_sent agg ext now).external_id = some ext ∧
    (m.mark_sent agg ext now).delivery_attempts =
      m.delivery_attempts ++
        [{ attempt_number := m.delivery_attempts.length + 1
           channel := m.channel
           attempted_at := now
           status := MessageStatus.SENT
           aggregator := some agg
           error_code := none
           error_message := none
           external_id := some ext }] :=
  ⟨rfl, rfl, rfl, rfl⟩

/-- C6: `queue` moves a PENDING message to QUEUED and stamps `queued_at`;
from any other status it raises `ValueError` and, having raised before
any assignment, leaves the message (status and timestamps included)
unchanged. -/
theorem queue_pending_only (m : Message) (now : Nat) :
    (m.status = MessageStatus.PENDING →
      ∃ m2, m.queue now = Except.ok m2 ∧ m2.status = MessageStatus.QUEUED ∧
        m2.queued_at = some now ∧ m2.updated_at = now) ∧
    (m.status ≠ MessageStatus.PENDING →
      (∃ e, m.queue now = Except.error (PyError.valueError e)) ∧
      applyOp m (Op.queue now) = m) := by
  constructor
  · intro h
    unfold Message.queue
    rw [if_neg (by simp [h])]
    exact ⟨_, rfl, rfl, rfl, rfl⟩
  · intro h
    have he : m.queue now = Except.error (PyError.valueError
        ("Cannot queue message in " ++ m.status.value ++ " status")) := by
      unfold Message.queue
      rw [if_pos h]
    exact ⟨⟨_, he⟩, by simp [applyOp, he]⟩

/-- Witness for C6: a fresh message queues; a SENT one raises and is
unchanged. -/
theorem queue_pending_only_witness :
    (∃ m2, sampleMessage.queue 5 = Except.ok m2 ∧
      m2.status = MessageStatus.QUEUED ∧ m2.queued_at = some 5 ∧
      m2.updated_at = 5) ∧
    ((∃ e, (sampleMessage.mark_sent "gupshup" "x1" 1).queue 5 =
        Except.error (PyError.valueError e)) ∧
      applyOp (sampleMessage.mark_sent "gupshup" "x1" 1) (Op.queue 5) =
        sampleMessage.mark_sent "gupshup" "x1" 1) :=
  ⟨(queue_pending_only sampleMessage 5).1 rfl,
   (queue_pending_only (sampleMessage.mark_sent "gupshup" "x1" 1) 5).2
     (by decide)⟩

/-- C7: `activate` succeeds only from DRAFT or SCHEDULED with at least
one recipient; on a DRAFT campaign with zero recipients it raises
`ValueError` and leaves the campaign (in particular its DRAFT status)
unchanged. -/
theorem activate_requires_recipients (c : Campaign) (now : Nat) :
    (∀ c2, c.activate now = Except.ok c2 →
      (c.status = CampaignStatus.DRAFT ∨ c.status = CampaignStatus.SCHEDULED) ∧
        0 < c.recipient_count) ∧
    (c.status = CampaignStatus.DRAFT → c.recipient_count = 0 →
      (∃ e, c.activate now = Except.error (PyError.valueError e)) ∧
      c.activateRun now = c) := by
  constructor
  · intro c2 hok
    unfold Campaign.activate at hok
    split_ifs at hok with hst hrc
    exact ⟨by tauto, Nat.pos_of_ne_zero hrc⟩
  · intro hd hz
    have hact : c.activate now =
        Except.error (PyError.valueError "Campaign must have at least one recipient") := by
      unfold Campaign.activate
      rw [if_neg (by simp [hd]), if_pos hz]
    exact ⟨⟨_, hact⟩, by unfold Campaign.activateRun; rw [hact]⟩

/-- Witness for C7: the populated draft activates (so the success
premises hold there); the empty draft raises and stays DRAFT. -/
theorem activate_requires_recipients_witness :
    ((draftCampaign.status = CampaignStatus.DRAFT ∨
       draftCampaign.status = CampaignStatus.SCHEDULED) ∧
      0 < draftCampaign.recipient_count) ∧
    ((∃ e, emptyDraftCampaign.activate 3 = Except.error (PyError.valueError e)) ∧
      emptyDraftCampaign.activateRun 3 = emptyDraftCampaign) :=
  ⟨(activate_requires_recipients draftCampaign 3).1 (draftCampaign.activateRun 3) rfl,
   (activate_requires_recipients emptyDraftCampaign 3).2 rfl rfl⟩

/-- C4 (code evaluated at the failing input): on a rate-limit signal
carrying `retry_after = 120` at instant 1000, the requeued dispatch job
is scheduled at 1000 — `_requeue_with_delay` ignores its `delay`
argument and schedules at `datetime.utcnow()` — while the message (and
so its `retry_count`) is indeed left untouched. -/
theorem rate_limit_requeue_not_delayed :
    (handle_rate_limit sampleMessage (some 120) 1000).1.scheduled_for = 1000 ∧
    (handle_rate_limit sampleMessage (some 120) 1000).2 = sampleMessage :=
  ⟨rfl, rfl⟩

/-- C3 (code evaluated at the failing input): `trigger_fallback` stores
`MessageContent.to_sms_text`, which drops the rich card's title and
description and the dial suggestion, storing just `"Sale!"` — whereas
the conversion the spec describes (transcribed as `richCardSmsText` from
the dead copy inside `DeliveryAttempt`) would append them. -/
theorem trigger_fallback_sms_text_drops_card :
    ∃ m2, ((Message.create "9876543210" cardContent 0).mark_failed
        FailureReason.RCS_NOT_SUPPORTED none none 1).trigger_fallback 2 =
          Except.ok m2 ∧
      m2.metadata_sms_text = some "Sale!" ∧
      richCardSmsText cardContent =
        "Sale!\n\nBig Sale\nHalf price\n\nCall: +15550100" :=
  ⟨_, rfl, rfl, by decide⟩

/-- Every single operation either leaves the channel untouched or sets
it to SMS; no operation ever assigns RCS. -/
theorem applyOp_channel_cases (m : Message) (op : Op) :
    (applyOp m op).channel = m.channel ∨
      (applyOp m op).channel = MessageChannel.SMS := by
  cases op with
  | queue now =>
    left
    by_cases h : m.status = MessageStatus.PENDING <;>
      simp [applyOp, Message.queue, h]
  | mark_sent agg ext now =>
    left
    simp [applyOp, Message.mark_sent, Message.record_attempt]
  | mark_delivered now =>
    left
    by_cases h : m.status ≠ MessageStatus.SENT ∧ m.status ≠ MessageStatus.QUEUED <;>
      simp [applyOp, Message.mark_delivered, Message.record_attempt, h]
  | mark_read now =>
    left
    by_cases h1 : m.channel ≠ MessageChannel.RCS
    · simp [applyOp, Message.mark_read, h1]
    · by_cases h2 : m.status ≠ MessageStatus.DELIVERED <;>
        simp [applyOp, Message.mark_read, h1, h2]
  | mark_failed reason ec em now =>
    left
    simp [applyOp, Message.mark_failed, Message.record_attempt]
  | trigger_fallback now =>
    by_cases h : m.should_fallback_to_sms
    · right
      simp [applyOp, Message.trigger_fallback, h]
    · left
      simp [applyOp, Message.trigger_fallback, h]
  | mark_fallback_sent agg ext now =>
    right
    simp [applyOp, Message.mark_fallback_sent]
  | mark_fallback_delivered now =>
    left
    simp [applyOp, Message.mark_fallback_delivered]
  | increment_retry now =>
    left
    simp [applyOp, Message.increment_retry]

/-- A run started on the RCS or SMS channel keeps the channel in that
set. -/
theorem runOps_channel_inv (ops : List Op) (m : Message)
    (h : m.channel = MessageChannel.RCS ∨ m.channel = MessageChannel.SMS) :
    (runOps m ops).channel = MessageChannel.RCS ∨
      (runOps m ops).channel = MessageChannel.SMS := by
  induction ops generalizing m with
  | nil => exact h
  | cons op ops ih =>
    refine ih (applyOp m op) ?_
    rcases applyOp_channel_cases m op with hs | hs
    · rw [hs]; exact h
    · exact Or.inr hs

/-- C5: after any operation sequence on a message built by
`Message.create`, one further operation either leaves the channel
unchanged or moves it RCS → SMS — so the channel can never move from
SMS back to RCS. -/
theorem channel_only_rcs_to_sms (phone : String) (content : MessageContent)
    (now : Nat) (ops : List Op) (op : Op) :
    (applyOp (runOps (Message.create phone content now) ops) op).channel =
        (runOps (Message.create phone content now) ops).channel ∨
      ((runOps (Message.create phone content now) ops).channel =
          MessageChannel.RCS ∧
        (applyOp (runOps (Message.create phone content now) ops) op).channel =
          MessageChannel.SMS) := by
  have hinv :=
    runOps_channel_inv ops (Message.create phone content now) (Or.inl rfl)
  rcases applyOp_channel_cases (runOps (Message.create phone content now) ops)
      op with h | h
  · exact Or.inl h
  · rcases hinv with h2 | h2
    · exact Or.inr ⟨h2, h⟩
    · exact Or.inl (h.trans h2.symm)

/-- C8: an opted-out recipient makes `send_message` raise `ValueError`
with no message created, and every message `send_message_batch` creates
is for a recipient the opt-out check cleared. -/
theorem opted_out_never_messaged (optedOut : String → Bool) (phone : String)
    (recipients : List String) (content : MessageContent) (now : Nat)
    (h : optedOut phone = true) :
    (∃ e, send_message optedOut phone content now =
      Except.error (PyError.valueError e)) ∧
    (∀ m ∈ send_message_batch optedOut recipients content now,
      ∃ p, p ∈ recipients ∧ optedOut p = false ∧
        m = Message.create p content now) := by
  constructor
  · exact ⟨_, by unfold send_message; rw [if_pos h]⟩
  · intro m hm
    unfold send_message_batch at hm
    simp only [List.mem_map, List.mem_filter] at hm
    obtain ⟨p, ⟨hp, hnop⟩, hmp⟩ := hm
    exact ⟨p, hp, by simpa using hnop, hmp.symm⟩

/-- Witness for C8: +911234567890 has opted out; it is rejected, and a
batch over it and a clean number only creates messages for cleared
recipients. -/
theorem opted_out_never_messaged_witness :
    (∃ e, send_message sampleOptedOut "+911234567890" plainContent 0 =
      Except.error (PyError.valueError e)) ∧
    (∀ m ∈ send_message_batch sampleOptedOut
        ["+911234567890", "+919876543210"] plainContent 0,
      ∃ p, p ∈ ["+911234567890", "+919876543210"] ∧ sampleOptedOut p = false ∧
        m = Message.create p plainContent 0) :=
  opted_out_never_messaged sampleOptedOut "+911234567890"
    ["+911234567890", "+919876543210"] plainContent 0 (by decide)

/-- C9 counterexample: an input already starting with a plus is stored
verbatim — here with its spaces — so the stored `recipient_phone` is not
a plus followed only by digits. -/
theorem created_phone_not_plus_digits :
    (Message.create "+91 98765 43210" plainContent 0).recipient_phone =
        "+91 98765 43210" ∧
    isPlusDigits "+91 98765 43210" = false :=
  ⟨rfl, by decide⟩

/-- C9 amended: inputs that do not start with a plus are normalized to a
plus followed only by digits (a 10-digit input gains country code 91);
inputs already starting with a plus are stored verbatim, unnormalized. -/
theorem normalize_phone_shape (phone : String) (content : MessageContent)
    (now : Nat) :
    (startsWithPlus phone = false →
      isPlusDigits (Message.create phone content now).recipient_phone = true) ∧
    (startsWithPlus phone = true →
      (Message.create phone content now).recipient_phone = phone) := by
  have hrp : (Message.create phone content now).recipient_phone =
      normalize_phone phone := rfl
  have hpd : ∀ (pre l : List Char), pre.all Char.isDigit = true →
      l.all Char.isDigit = true →
      isPlusDigits (String.mk ('+' :: (pre ++ l))) = true := by
    intro pre l hpre hl
    show (decide ('+' = '+') && (pre ++ l).all Char.isDigit) = true
    simp [List.all_append, hpre, hl]
  have hall : ∀ l : List Char, (l.filter Char.isDigit).all Char.isDigit = true :=
    fun l => List.all_eq_true.mpr fun c hc => (List.mem_filter.mp hc).2
  constructor
  · intro h
    rw [hrp]
    simp only [normalize_phone, h, Bool.not_false, if_true]
    by_cases h10 : (String.mk (phone.data.filter Char.isDigit)).length == 10
    · rw [if_pos h10]
      have he : ("+91" ++ String.mk (phone.data.filter Char.isDigit)) =
          String.mk ('+' :: (['9', '1'] ++ phone.data.filter Char.isDigit)) := rfl
      rw [he]
      exact hpd ['9', '1'] _ (by decide) (hall _)
    · rw [if_neg h10]
      have he : ("+" ++ String.mk (phone.data.filter Char.isDigit)) =
          String.mk ('+' :: ([] ++ phone.data.filter Char.isDigit)) := rfl
      rw [he]
      exact hpd [] _ (by decide) (hall _)
  · intro h
    rw [hrp]
    simp [normalize_phone, h]

/-- Witness for C9's amended statement: a bare 10-digit number gains
+91 and is plus-digits; a plus-prefixed input is stored verbatim. -/
theorem normalize_phone_shape_witness :
    isPlusDigits (Message.create "98765 43210" plainContent 0).recipient_phone
        = true ∧
    (Message.create "+91 98765 43210" plainContent 7).recipient_phone =
      "+91 98765 43210" :=
  ⟨(normalize_phone_shape "98765 43210" plainContent 0).1 (by decide),
   (normalize_phone_shape "+91 98765 43210" plainContent 7).2 (by decide)⟩

end RcsBulk
